import Mathlib

/-!
Verification development for the skill-host JSON-RPC bridge
(`src/dev/runtime/server.py`, class `SkillServer`).

The bridge is embedded as an executable small-step machine:

* `JValue` models the Python JSON values (dicts, lists, str, int, bool, None)
  that `server.py` manipulates after `json.loads` / before `json.dumps`.
* `Prog` models a handler or hook coroutine body at the granularity the
  bridge observes it: it either finishes (`pure` for a normal return,
  `fail` for a raised exception), awaits `SkillServer._reverse_rpc`
  (`call`, whose continuation receives the result or the raised
  `RuntimeError` message), or schedules a fire-and-forget reverse RPC via
  `asyncio.ensure_future` (`detach`, mirroring `_Context.set_state` and
  `_Context.emit_event`).
* `ServerState` holds the `SkillServer` instance fields; `Machine` adds the
  asyncio event loop state: the single main task running `SkillServer._run`
  (`MainStatus`), the detached tasks, the timed inbound stream, the frames
  written to stdout, the stderr log, and the `call_later` exit timer
  scheduled by `skill/shutdown`.

Time is measured in integer ticks of 0.1 time units, so that the
`wait_for` timeout of 30.0 becomes `300 = 30 * timeUnit` ticks and the
`call_later(0.1, ...)` exit delay becomes `1 = exitDelay` tick.

Scheduling faithfully follows asyncio with a single `asyncio.run` task:
`_run` awaits `_handle_message` to completion before reading the next line,
so while a handler is suspended in `_reverse_rpc` no inbound frame is
dispatched; only timers (`wait_for` timeouts, the exit timer) and detached
tasks can run.  Inbound frames carry arrival times; the stream reports EOF
at `closeAt` once all frames are consumed.
-/

/-- JSON values as manipulated by `server.py` (Python dict / list / str /
int / bool / None).  Object fields keep insertion order, as Python dicts
do. -/
inductive JValue where
  | null : JValue
  | bool : Bool → JValue
  | num : Int → JValue
  | str : String → JValue
  | arr : List JValue → JValue
  | obj : List (String × JValue) → JValue

/-- Python `d.get(k)` on a dict (first matching key; our frames never
repeat keys).  Non-dicts have no keys. -/
def JValue.get : JValue → String → Option JValue
  | .obj fs, k => fs.lookup k
  | _, _ => none

/-- Python `d.get(k, default)`. -/
def JValue.getD (j : JValue) (k : String) (d : JValue) : JValue :=
  (j.get k).getD d

/-- Python `k in d` (key containment test on a dict). -/
def JValue.hasKey (j : JValue) (k : String) : Bool :=
  match j with
  | .obj fs => fs.any (fun f => f.1 == k)
  | _ => false

/-- Python truthiness, used by `if p.get("manifest"):` in `skill/load`. -/
def JValue.truthy : JValue → Bool
  | .null => false
  | .bool b => b
  | .num n => n != 0
  | .str s => !s.isEmpty
  | .arr xs => !xs.isEmpty
  | .obj fs => !fs.isEmpty

/-- Python `isinstance(x, str)`. -/
def JValue.isStr : JValue → Bool
  | .str _ => true
  | _ => false

/-- Extract a Python string, with a default for non-strings. -/
def JValue.asStrD (j : JValue) (d : String) : String :=
  match j with
  | .str s => s
  | _ => d

/-- The `ToolDefinition` record consumed by `server.py`
(`t.definition.name`, `t.definition.description`,
`t.definition.parameters`); `parameters` is the JSON-schema-shaped dict
the examples pass. -/
structure ToolDefinition where
  name : String
  description : String
  parameters : JValue

/-- The `ToolResult` record a tool returns (`result.content`,
`result.is_error`). -/
structure ToolResult where
  content : String
  is_error : Bool

/-- A handler or hook coroutine body, at the granularity the bridge
observes: it returns (`pure`), raises (`fail`), awaits
`SkillServer._reverse_rpc` (`call`; the continuation receives the host
result, or the message of the `RuntimeError` raised on a Response-error or
timeout), or calls `asyncio.ensure_future` on a reverse RPC and continues
immediately (`detach`).  The `detach` continuation takes no outcome: the
scheduled task is never awaited, so its result or failure is unobservable
to the caller, exactly as in `_Context.set_state` / `_Context.emit_event`
(server.py lines 350-355). -/
inductive Prog (α : Type) where
  | pure : α → Prog α
  | fail : String → Prog α
  | call : String → Option JValue → (Except String JValue → Prog α) → Prog α
  | detach : String → Option JValue → Prog α → Prog α

/-- Sequencing of coroutine bodies. -/
def Prog.bind {α β : Type} : Prog α → (α → Prog β) → Prog β
  | .pure a, f => f a
  | .fail e, _ => .fail e
  | .call mth p k, f => .call mth p (fun r => (k r).bind f)
  | .detach mth p k, f => .detach mth p (k.bind f)

/-- The `SkillTool` record: a definition plus `execute` taking the
`arguments` dict. -/
structure SkillTool where
  definition : ToolDefinition
  execute : JValue → Prog ToolResult

/-- The `SkillHooks` bundle; each slot optional, as `server.py` tests
`self._hooks and self._hooks.on_load` etc.  Hooks that receive an
event-specific argument (session id, message text, response text) take it
as a `JValue`, the raw `params` field the code passes. -/
structure SkillHooks where
  on_load : Option (Prog JValue) := none
  on_unload : Option (Prog JValue) := none
  on_session_start : Option (JValue → Prog JValue) := none
  on_session_end : Option (JValue → Prog JValue) := none
  on_before_message : Option (JValue → Prog JValue) := none
  on_after_response : Option (JValue → Prog JValue) := none
  on_tick : Option (Prog JValue) := none

/-- The skill definition consumed by `SkillServer.__init__`. -/
structure SkillDefinition where
  tools : List SkillTool
  hooks : Option SkillHooks

/-- The mutable fields of a `SkillServer` instance:
`_tools` (an insertion-ordered dict name to tool), `_hooks`, the key set of
`_pending` (ids of unsettled reverse-RPC futures), `_next_id`, `_manifest`
and `_data_dir`. -/
structure ServerState where
  tools : List (String × SkillTool)
  hooks : Option SkillHooks
  pending : List Nat
  nextId : Nat
  manifest : Option JValue
  dataDir : String

/-- Python dict insertion: replace in place if the key exists, else
append. -/
def dictInsert {α : Type} (l : List (String × α)) (k : String) (v : α) :
    List (String × α) :=
  if l.any (fun p => p.1 == k) then
    l.map (fun p => if p.1 == k then (k, v) else p)
  else l ++ [(k, v)]

/-- `SkillServer.__init__` (server.py lines 31-40). -/
def ServerState.init (skill : SkillDefinition) : ServerState :=
  { tools := skill.tools.foldl (fun d t => dictInsert d t.definition.name t) []
    hooks := skill.hooks
    pending := []
    nextId := 1
    manifest := none
    dataDir := "" }

/-- Time in ticks of 0.1 time units. -/
abbrev Time := Int

/-- One time unit (the unit of the spec and of `asyncio` seconds) in
ticks. -/
def timeUnit : Time := 10

/-- The fixed `wait_for` timeout of `_reverse_rpc`: 30.0 time units
(server.py line 396). -/
def rpcTimeout : Time := 30 * timeUnit

/-- The `call_later(0.1, ...)` delay before `sys.exit(0)` in
`skill/shutdown` (server.py line 263). -/
def exitDelay : Time := 1

/-- The Response payload `{"ok": True}`. -/
def okTrue : JValue := .obj [("ok", .bool true)]

/-- The Request frame built by `_reverse_rpc` (server.py lines 386-388). -/
def requestFrame (id : Nat) (method : String) (params : Option JValue) :
    JValue :=
  .obj ([("jsonrpc", .str "2.0"), ("id", .num id), ("method", .str method)]
    ++ (match params with | some p => [("params", p)] | none => []))

/-- The frame built by `_send_response` (server.py lines 363-365). -/
def responseFrame (id : JValue) (result : JValue) : JValue :=
  .obj [("jsonrpc", .str "2.0"), ("id", id), ("result", result)]

/-- The frame built by `_send_error` (server.py lines 367-373). -/
def errorFrame (id : JValue) (code : Int) (message : String) : JValue :=
  .obj [("jsonrpc", .str "2.0"), ("id", id),
        ("error", .obj [("code", .num code), ("message", .str message)])]

/-- One entry of the `tools/list` advertisement (server.py lines 183-194):
name, description and an inputSchema rebuilt from
`parameters.get("properties", {})` and `parameters.get("required")`
(the latter serializes as JSON null when absent). -/
def renderTool (t : SkillTool) : JValue :=
  .obj [("name", .str t.definition.name),
        ("description", .str t.definition.description),
        ("inputSchema", .obj [
          ("type", .str "object"),
          ("properties", t.definition.parameters.getD "properties" (.obj [])),
          ("required", (t.definition.parameters.get "required").getD .null)])]

/-- The `tools/list` result object. -/
def toolsListResult (s : ServerState) : JValue :=
  .obj [("tools", .arr (s.tools.map (fun p => renderTool p.2)))]

/-- `_Tools.register` in the Context built by `_create_context`
(server.py lines 306-308): the body is `pass`, so the server state is
returned unchanged. -/
def ctxToolsRegister (s : ServerState) (_tool : SkillTool) : ServerState := s

/-- `_Tools.unregister` (server.py lines 310-311): body `pass`. -/
def ctxToolsUnregister (s : ServerState) (_name : String) : ServerState := s

/-- `_Tools.list` (server.py lines 313-314). -/
def ctxToolsList (s : ServerState) : List String := s.tools.map (fun p => p.1)

/-- `_Context.set_state` (server.py lines 350-352): fire-and-forget
`asyncio.ensure_future(server.set_state(partial))`, where
`SkillServer.set_state` awaits `_reverse_rpc("state/set", ...)`. -/
def ctxSetState {α : Type} (part : JValue) (k : Prog α) : Prog α :=
  .detach "state/set" (some (.obj [("partial", part)])) k

/-- `_Context.emit_event` (server.py lines 354-355): fire-and-forget
`asyncio.ensure_future(server.emit_event(...))`. -/
def ctxEmitEvent {α : Type} (eventType : String) (data : JValue) (k : Prog α) :
    Prog α :=
  .detach "intelligence/emitEvent"
    (some (.obj [("eventType", .str eventType), ("data", data)])) k

/-- Outcome of `SkillServer._dispatch` (server.py lines 177-266), before
handler bodies run: an immediate result or raised exception (`now`), a
coroutine still to be awaited (`later`), or the `skill/shutdown` branch
which schedules `sys.exit(0)` via `call_later` and returns ok
(`schedExit`). -/
inductive DispatchR where
  | now : ServerState → Except String JValue → DispatchR
  | later : ServerState → Prog JValue → DispatchR
  | schedExit : ServerState → JValue → DispatchR

/-- Wrapping of a tool result into the `tools/call` Response payload
(server.py lines 204-207). -/
def wrapToolResult (r : ToolResult) : Prog JValue :=
  .pure (.obj
    [("content", .arr [.obj [("type", .str "text"), ("text", .str r.content)]]),
     ("isError", .bool r.is_error)])

/-- The `skill/beforeMessage` transform echo (server.py line 246):
`result if isinstance(result, str) else None`. -/
def wrapBeforeMessage (r : JValue) : Prog JValue :=
  .pure (.obj [("message", if r.isStr then r else .null)])

/-- The `skill/afterResponse` transform echo (server.py line 253). -/
def wrapAfterResponse (r : JValue) : Prog JValue :=
  .pure (.obj [("response", if r.isStr then r else .null)])

/-- `SkillServer._dispatch` (server.py lines 177-266), translated branch
by branch in source order. -/
def dispatch (s : ServerState) (method : String) (params : JValue) :
    DispatchR :=
  let p := match params with | .obj _ => params | _ => .obj []
  if method == "tools/list" then
    .now s (.ok (toolsListResult s))
  else if method == "tools/call" then
    let name := (p.getD "name" (.str "")).asStrD ""
    let args := p.getD "arguments" (.obj [])
    match s.tools.lookup name with
    | none => .now s (.error ("Unknown tool: " ++ name))
    | some t => .later s ((t.execute args).bind wrapToolResult)
  else if method == "skill/load" then
    let s1 := if (p.getD "manifest" .null).truthy then
                { s with manifest := some (p.getD "manifest" .null) } else s
    let s2 := if (p.getD "dataDir" .null).truthy then
                { s1 with dataDir := (p.getD "dataDir" .null).asStrD "" }
              else s1
    match s2.hooks.bind (fun h => h.on_load) with
    | some hk => .later s2 (hk.bind (fun _ => .pure okTrue))
    | none => .now s2 (.ok okTrue)
  else if method == "skill/unload" then
    match s.hooks.bind (fun h => h.on_unload) with
    | some hk => .later s (hk.bind (fun _ => .pure okTrue))
    | none => .now s (.ok okTrue)
  else if method == "skill/activate" then
    .now s (.ok okTrue)
  else if method == "skill/deactivate" then
    .now s (.ok okTrue)
  else if method == "skill/sessionStart" then
    let sid := p.getD "sessionId" (.str "")
    match s.hooks.bind (fun h => h.on_session_start) with
    | some hk => .later s ((hk sid).bind (fun _ => .pure okTrue))
    | none => .now s (.ok okTrue)
  else if method == "skill/sessionEnd" then
    let sid := p.getD "sessionId" (.str "")
    match s.hooks.bind (fun h => h.on_session_end) with
    | some hk => .later s ((hk sid).bind (fun _ => .pure okTrue))
    | none => .now s (.ok okTrue)
  else if method == "skill/beforeMessage" then
    let msg := p.getD "message" (.str "")
    match s.hooks.bind (fun h => h.on_before_message) with
    | some hk => .later s ((hk msg).bind wrapBeforeMessage)
    | none => .now s (.ok (.obj [("message", .null)]))
  else if method == "skill/afterResponse" then
    let resp := p.getD "response" (.str "")
    match s.hooks.bind (fun h => h.on_after_response) with
    | some hk => .later s ((hk resp).bind wrapAfterResponse)
    | none => .now s (.ok (.obj [("response", .null)]))
  else if method == "skill/tick" then
    match s.hooks.bind (fun h => h.on_tick) with
    | some hk => .later s (hk.bind (fun _ => .pure okTrue))
    | none => .now s (.ok okTrue)
  else if method == "skill/shutdown" then
    .schedExit s okTrue
  else
    .now s (.error ("Unknown method: " ++ method))

/-- The twelve inbound methods `_dispatch` implements (spec section 6). -/
def implementedMethods : List String :=
  ["tools/list", "tools/call", "skill/load", "skill/unload",
   "skill/activate", "skill/deactivate", "skill/sessionStart",
   "skill/sessionEnd", "skill/beforeMessage", "skill/afterResponse",
   "skill/tick", "skill/shutdown"]

/-- A task suspended in `await asyncio.wait_for(future, timeout=30.0)`
inside `_reverse_rpc`: the awaited pending id, the method (used in the
timeout error message), the absolute deadline, and the continuation that
receives the settlement. -/
structure Susp where
  waitId : Nat
  method : String
  deadline : Time
  k : Except String JValue → Prog JValue

/-- A detached task created by `asyncio.ensure_future`: scheduled but not
yet run (`runnable`), suspended on its own reverse-RPC future (`waiting`),
or finished (`fin`) with its result or exception never retrieved. -/
inductive DTask where
  | runnable : Prog JValue → DTask
  | waiting : Susp → DTask
  | fin : DTask

/-- The shape of a detached task with the continuation closure erased,
for stating equalities about task lists. -/
inductive DTaskShape where
  | runnable : DTaskShape
  | waiting : Nat → String → Time → DTaskShape
  | fin : DTaskShape
deriving DecidableEq

/-- Erase the closures of a detached task. -/
def dtaskShape : DTask → DTaskShape
  | .runnable _ => .runnable
  | .waiting s => .waiting s.waitId s.method s.deadline
  | .fin => .fin

/-- The state of the single task running `SkillServer._run`: parked on
`reader.readline()` (`idle`), executing `_handle_message` for an inbound
frame but suspended in a reverse RPC (`inHandler`, carrying the id to
respond to, if any), or past the `break` after EOF (`finished`). -/
inductive MainStatus where
  | idle : MainStatus
  | inHandler : Option JValue → Susp → MainStatus
  | finished : MainStatus

/-- One inbound line after the codec steps of `_run` (lines 134-141):
whitespace-only (`blank`, skipped silently), not valid JSON (`bad`,
logged and dropped — `json.loads` is the external codec, so the parse
outcome is part of the input), or a parsed JSON object (`msg`). -/
inductive InLine where
  | blank : InLine
  | bad : String → InLine
  | msg : JValue → InLine

/-- The inbound stream: time-stamped lines in arrival order, then EOF at
`closeAt` (the host closing the pipe, after which `readline` returns an
empty read and `_run` breaks). -/
structure Inbox where
  frames : List (Time × InLine)
  closeAt : Time

/-- The whole process state: clock, `SkillServer` fields, the main task,
the detached tasks, the streams, the stderr log, the scheduled
`sys.exit(0)` timer and whether it fired. -/
structure Machine where
  now : Time
  server : ServerState
  main : MainStatus
  dtasks : List DTask
  inbox : Inbox
  outbox : List JValue
  log : List String
  exitAt : Option Time
  exited : Bool

/-- Result of running a coroutine body until it suspends or finishes. -/
inductive RunRes where
  | done : Except String JValue → RunRes
  | susp : Susp → RunRes

/-- The coroutine wrapped by `ensure_future` in `_Context.set_state` and
`_Context.emit_event`: a single awaited `_reverse_rpc` whose result is
discarded and whose exception, if any, is never retrieved. -/
def detachProg (method : String) (params : Option JValue) : Prog JValue :=
  .call method params (fun _ => .pure .null)

/-- Run a coroutine body synchronously until it suspends or finishes.
A `call` performs `_reverse_rpc` (server.py lines 383-396): allocate
`_next_id`, insert the pending future, write the Request frame, then
suspend with deadline `now + 30.0`.  A `detach` appends a scheduled task
(`ensure_future`) and continues immediately. -/
def runProg (m : Machine) : Prog JValue → Machine × RunRes
  | .pure v => (m, .done (.ok v))
  | .fail e => (m, .done (.error e))
  | .call method params k =>
      let id := m.server.nextId
      ({ m with
          server := { m.server with
                      nextId := id + 1
                      pending := m.server.pending ++ [id] }
          outbox := m.outbox ++ [requestFrame id method params] },
       .susp { waitId := id, method := method,
               deadline := m.now + rpcTimeout, k := k })
  | .detach method params k =>
      runProg
        { m with dtasks := m.dtasks ++ [.runnable (detachProg method params)] }
        k

/-- Finish `_handle_message` for a Request or Notification (server.py
lines 167-175): on a normal result, respond when an id is present; on an
exception, send a `-32603` Response-error when an id is present, else log.
The main task returns to `reader.readline()`. -/
def finishHandler (m : Machine) (rid : Option JValue) :
    Except String JValue → Machine
  | .ok v =>
      match rid with
      | some id => { m with outbox := m.outbox ++ [responseFrame id v]
                            main := .idle }
      | none => { m with main := .idle }
  | .error e =>
      match rid with
      | some id => { m with outbox := m.outbox ++ [errorFrame id (-32603) e]
                            main := .idle }
      | none => { m with log := m.log ++ ["Notification handler error: " ++ e]
                         main := .idle }

/-- Run a dispatch coroutine on the main task until it suspends or the
Response is produced. -/
def runHandler (m : Machine) (rid : Option JValue) (p : Prog JValue) :
    Machine :=
  match runProg m p with
  | (m1, .done r) => finishHandler m1 rid r
  | (m1, .susp s) => { m1 with main := .inHandler rid s }

/-- The key `_pending.pop(message.get("id"), ...)` matches on: our ids are
the ints allocated by `_reverse_rpc`, so only an integer id can settle a
future; a missing or null id is `None` and matches nothing. -/
def settleId (frame : JValue) : Option Nat :=
  match frame.get "id" with
  | some (.num (Int.ofNat k)) => some k
  | _ => none

/-- Deliver a settled future to the task awaiting it: the waiting task is
rescheduled with the outcome (asyncio wakes it via the event loop; it runs
on a later scheduler turn). -/
def resumeWaiter (m : Machine) (id : Nat) (outcome : Except String JValue) :
    Machine :=
  { m with dtasks := m.dtasks.map (fun t =>
      match t with
      | .waiting s => if s.waitId == id then .runnable (s.k outcome) else t
      | _ => t) }

/-- The Response branch of `_handle_message` (server.py lines 150-160):
pop the pending future; if present and unsettled, reject it with the
error message (default string when missing) or resolve it with the
result; a late or unknown id is discarded silently. -/
def respond (m : Machine) (frame : JValue) : Machine :=
  match settleId frame with
  | none => m
  | some id =>
      if m.server.pending.contains id then
        let outcome : Except String JValue :=
          if frame.hasKey "error" then
            .error (((frame.getD "error" .null).getD "message"
              (.str "Reverse RPC error")).asStrD "Reverse RPC error")
          else .ok ((frame.get "result").getD .null)
        resumeWaiter
          { m with server := { m.server with
              pending := m.server.pending.filter (fun j => j != id) } }
          id outcome
      else m

/-- The Request/Notification branch of `_handle_message` (server.py lines
162-175) plus `_dispatch`: extract method, params and id, dispatch, and
either finish immediately, run the handler coroutine, or schedule the
shutdown exit timer and acknowledge. -/
def handleRequest (m : Machine) (frame : JValue) : Machine :=
  let method := (frame.getD "method" (.str "")).asStrD ""
  let params := (frame.get "params").getD .null
  let rid : Option JValue :=
    match frame.get "id" with
    | some .null => none
    | some v => some v
    | none => none
  match dispatch m.server method params with
  | .now s r => finishHandler { m with server := s } rid r
  | .later s p => runHandler { m with server := s } rid p
  | .schedExit s r =>
      finishHandler
        { m with server := s, exitAt := some (m.now + exitDelay) } rid (.ok r)

/-- `_handle_message` (server.py lines 148-175): a frame carrying a
`result` or `error` key is a Response to a reverse RPC; anything else is
an inbound Request or Notification. -/
def handleMessage (m : Machine) (frame : JValue) : Machine :=
  if frame.hasKey "result" || frame.hasKey "error" then respond m frame
  else handleRequest m frame

/-- The body of the read loop of `_run` (server.py lines 130-142) for one
line: blank lines are skipped silently, lines that are not valid JSON are
logged and dropped, parsed objects go to `_handle_message`. -/
def processArrival (m : Machine) (l : InLine) : Machine :=
  match l with
  | .blank => m
  | .bad raw =>
      { m with log := m.log ++ ["Failed to parse JSON-RPC message: " ++ raw] }
  | .msg j => handleMessage m j

/-- First scheduled-but-not-yet-run detached task, with its index. -/
def findRunnable : List DTask → Option (Nat × Prog JValue)
  | [] => none
  | .runnable p :: _ => some (0, p)
  | _ :: ts => (findRunnable ts).map (fun ip => (ip.1 + 1, ip.2))

/-- Earliest `wait_for` deadline among waiting detached tasks, with its
index (earliest-created wins ties, like the asyncio timer queue). -/
def earliestWaiting : List DTask → Option (Nat × Time)
  | [] => none
  | .waiting s :: ts =>
      match earliestWaiting ts with
      | some (j, t) => if t < s.deadline then some (j + 1, t)
                       else some (0, s.deadline)
      | none => some (0, s.deadline)
  | _ :: ts => (earliestWaiting ts).map (fun jt => (jt.1 + 1, jt.2))

/-- Fire the `wait_for` timeout of the detached task at index `i`
(server.py lines 396-399 running inside that task): pop the pending
entry and reschedule the task with the `RuntimeError` timeout message. -/
def fireDTaskTimeout (m : Machine) (i : Nat) (td : Time) : Machine :=
  match m.dtasks[i]? with
  | some (.waiting s) =>
      { m with
        now := td
        server := { m.server with
          pending := m.server.pending.filter (fun j => j != s.waitId) }
        dtasks := m.dtasks.set i
          (.runnable (s.k (.error ("Reverse RPC timeout: " ++ s.method)))) }
  | _ => { m with now := td }

/-- Fire the `wait_for` timeout of the reverse RPC the main task is
suspended on (server.py lines 396-399): pop the pending entry and resume
the handler with the `RuntimeError` timeout message. -/
def fireHandlerTimeout (m : Machine) (rid : Option JValue) (s : Susp) :
    Machine :=
  runHandler
    { m with
      now := s.deadline
      server := { m.server with
        pending := m.server.pending.filter (fun j => j != s.waitId) } }
    rid (s.k (.error ("Reverse RPC timeout: " ++ s.method)))

/-- The `call_later` exit timer fires: `sys.exit(0)` terminates the
process (server.py line 263). -/
def doExit (m : Machine) (te : Time) : Machine :=
  { m with now := te, exited := true }

/-- The main task consumes the next inbound event at `reader.readline()`:
the next line when one will arrive, or EOF once the stream is exhausted
and closed, upon which `_run` breaks out of the loop. -/
def consumeArrival (m : Machine) (arrT : Time) : Machine :=
  match m.inbox.frames with
  | [] => { m with now := arrT, main := .finished }
  | (_, l) :: rest =>
      processArrival
        { m with now := arrT, inbox := { m.inbox with frames := rest } } l

/-- One scheduler turn of the asyncio loop.  Priority: a terminated
process or a finished read loop halts; a scheduled detached task runs
next (it was queued by `call_soon`); otherwise the earliest timed event
fires.  While the main task is inside `_handle_message` the readline is
not active, so inbound frames are not candidates — only `wait_for`
timeouts and the exit timer can fire, which is exactly the sequential
behavior of `await self._handle_message(message)` in `_run`. -/
def step (m : Machine) : Machine :=
  if m.exited then m
  else match m.main with
  | .finished => m
  | .idle =>
      match findRunnable m.dtasks with
      | some ip => -- run the scheduled detached task
          let m1 := { m with dtasks := m.dtasks.set ip.1 .fin }
          match runProg m1 ip.2 with
          | (m2, .done _) => m2
          | (m2, .susp s) =>
              { m2 with dtasks := m2.dtasks.set ip.1 (.waiting s) }
      | none =>
          let arrT := match m.inbox.frames with
            | (t, _) :: _ => max m.now t
            | [] => max m.now m.inbox.closeAt
          match earliestWaiting m.dtasks, m.exitAt with
          | some it, some te =>
              if it.2 ≤ te then
                if arrT ≤ it.2 then consumeArrival m arrT
                else fireDTaskTimeout m it.1 it.2
              else
                if arrT ≤ te then consumeArrival m arrT
                else doExit m te
          | some it, none =>
              if arrT ≤ it.2 then consumeArrival m arrT
              else fireDTaskTimeout m it.1 it.2
          | none, some te =>
              if arrT ≤ te then consumeArrival m arrT
              else doExit m te
          | none, none => consumeArrival m arrT
  | .inHandler rid s =>
      match findRunnable m.dtasks with
      | some ip =>
          let m1 := { m with dtasks := m.dtasks.set ip.1 .fin }
          match runProg m1 ip.2 with
          | (m2, .done _) => m2
          | (m2, .susp s1) =>
              { m2 with dtasks := m2.dtasks.set ip.1 (.waiting s1) }
      | none =>
          match earliestWaiting m.dtasks, m.exitAt with
          | none, none => fireHandlerTimeout m rid s
          | some it, none =>
              if it.2 < s.deadline then fireDTaskTimeout m it.1 it.2
              else fireHandlerTimeout m rid s
          | none, some te =>
              if te < s.deadline then doExit m te
              else fireHandlerTimeout m rid s
          | some it, some te =>
              if it.2 < s.deadline then
                if te < it.2 then doExit m te
                else fireDTaskTimeout m it.1 it.2
              else
                if te < s.deadline then doExit m te
                else fireHandlerTimeout m rid s

/-- Run the machine for a number of scheduler turns (halted machines are
fixed points of `step`). -/
def run : Nat → Machine → Machine
  | 0, m => m
  | Nat.succ n, m => run n (step m)

/-- The freshly started bridge: `SkillServer(skill)` then `start()`. -/
def initMachine (skill : SkillDefinition) (inbox : Inbox) : Machine :=
  { now := 0
    server := ServerState.init skill
    main := .idle
    dtasks := []
    inbox := inbox
    outbox := []
    log := []
    exitAt := none
    exited := false }

/-- The shape of the main task state with the suspension closure erased
(respond-to id, awaited id, method, deadline), for stating equalities. -/
inductive MainShape where
  | idle : MainShape
  | inHandler : Option JValue → Nat → String → Time → MainShape
  | finished : MainShape

/-- Erase the closures of the main task state. -/
def mainShape : MainStatus → MainShape
  | .idle => .idle
  | .inHandler rid s => .inHandler rid s.waitId s.method s.deadline
  | .finished => .finished

/-- The parameter schema of the `add_note` example tool
(examples/kitchen-sink). -/
def addNoteParameters : JValue :=
  .obj [("type", .str "object"),
        ("properties", .obj [
           ("title", .obj [("type", .str "string")]),
           ("body", .obj [("type", .str "string")])]),
        ("required", .arr [.str "title", .str "body"])]

/-- The `data/write` params of the note file the `add_note` handler
persists. -/
def addNoteWriteParams : JValue :=
  .obj [("filename", .str "note_1.json"), ("content", .str "note content")]

/-- The `state/set` partial the `add_note` handler pushes after the
write. -/
def addNotePartial : JValue :=
  .obj [("notes_index",
         .arr [.obj [("id", .str "note_1"), ("title", .str "x")]])]

/-- The `add_note` handler body, as in the kitchen-sink example
`execute_add_note`: `await ctx.write_data(...)` (an awaited reverse
`data/write`, whose exception propagates), then the fire-and-forget
`ctx.set_state(...)`, then return the textual result. -/
def addNoteProg (_args : JValue) : Prog ToolResult :=
  .call "data/write" (some addNoteWriteParams) (fun r =>
    match r with
    | .ok _ => ctxSetState addNotePartial
        (.pure { content := "Note saved as note_1.", is_error := false })
    | .error e => .fail e)

/-- The `add_note` tool record. -/
def addNoteTool : SkillTool :=
  { definition := { name := "add_note"
                    description := "Save a note to the data directory"
                    parameters := addNoteParameters }
    execute := addNoteProg }

/-- A skill exposing only `add_note`, no hooks. -/
def demoSkill : SkillDefinition := { tools := [addNoteTool], hooks := none }

/-- The `advanced_analytics` tool the kitchen-sink example registers at
runtime through `ctx.tools.register`. -/
def advancedAnalyticsTool : SkillTool :=
  { definition := { name := "advanced_analytics"
                    description := "Run advanced on-chain analytics"
                    parameters := .obj [("type", .str "object"),
                      ("properties", .obj [("protocol",
                        .obj [("type", .str "string")])]),
                      ("required", .arr [.str "protocol"])] }
    execute := fun _ => .pure { content := "analytics", is_error := false } }

/-- Scenario B (claim C1): `tools/call` of `add_note` with id 2. -/
def c1CallFrame : JValue :=
  .obj [("jsonrpc", .str "2.0"), ("id", .num 2), ("method", .str "tools/call"),
        ("params", .obj [("name", .str "add_note"),
          ("arguments", .obj [("title", .str "x"), ("body", .str "y")])])]

/-- The host answering the reverse `data/write` Request (id 1) promptly,
one time unit after the call. -/
def c1HostResponse : JValue :=
  .obj [("jsonrpc", .str "2.0"), ("id", .num 1), ("result", okTrue)]

/-- Scenario B machine: the tool call at time 0, the host Response to the
reverse call at 1.0 time units, the host closing stdin at 40.0 units. -/
def c1Machine : Machine :=
  initMachine demoSkill
    { frames := [(0, .msg c1CallFrame), (10, .msg c1HostResponse)]
      closeAt := 400 }

/-- A Request with an unknown method and id 5. -/
def c2Frame : JValue :=
  .obj [("jsonrpc", .str "2.0"), ("id", .num 5),
        ("method", .str "intelligence/unknownThing")]

/-- Machine receiving only the unknown-method Request. -/
def c2Machine : Machine :=
  initMachine demoSkill { frames := [(0, .msg c2Frame)], closeAt := 10 }

/-- `skill/shutdown` Request with id 1. -/
def c4ShutdownFrame : JValue :=
  .obj [("jsonrpc", .str "2.0"), ("id", .num 1),
        ("method", .str "skill/shutdown")]

/-- `tools/list` Request with id 2. -/
def c4ListFrame : JValue :=
  .obj [("jsonrpc", .str "2.0"), ("id", .num 2), ("method", .str "tools/list")]

/-- Scenario D machine: shutdown at time 0, then a further Request that is
already buffered when the acknowledgment is written (the exit timer only
fires 0.1 units later); stream closes at 10 units. -/
def c4Machine : Machine :=
  initMachine demoSkill
    { frames := [(0, .msg c4ShutdownFrame), (0, .msg c4ListFrame)]
      closeAt := 100 }

/-- The state partial pushed by the tick hook. -/
def tickPartial : JValue := .obj [("tick_count", .num 1)]

/-- A skill whose `on_tick` hook calls `ctx.set_state` (fire-and-forget)
and returns. -/
def tickSkill : SkillDefinition :=
  { tools := []
    hooks := some { on_tick := some (ctxSetState tickPartial (.pure .null)) } }

/-- `skill/tick` Request with id 9. -/
def tickFrame : JValue :=
  .obj [("jsonrpc", .str "2.0"), ("id", .num 9), ("method", .str "skill/tick")]

/-- The reverse `state/set` Request frame the detached task writes. -/
def tickStateSetRequest : JValue :=
  requestFrame 1 "state/set" (some (.obj [("partial", tickPartial)]))

/-- Claim C5 machine: a tick whose hook leaves a detached reverse call
outstanding, then the host closes stdin at 5.0 units, long before the
30-unit timeout. -/
def c5Machine : Machine :=
  initMachine tickSkill { frames := [(0, .msg tickFrame)], closeAt := 50 }

/-- A bad line followed by a valid `tools/list` Request (Scenario C). -/
def c8ListFrame : JValue :=
  .obj [("jsonrpc", .str "2.0"), ("id", .num 7), ("method", .str "tools/list")]

/-- Scenario C machine: invalid JSON at time 0, valid Request at 1.0
units, close at 2.0 units. -/
def c8Machine : Machine :=
  initMachine demoSkill
    { frames := [(0, .bad "not json"), (10, .msg c8ListFrame)]
      closeAt := 20 }

/-- A skill whose before-message hook returns the empty string (an
explicit transform-to-empty). -/
def emptyTransformSkill : SkillDefinition :=
  { tools := []
    hooks := some { on_before_message := some (fun _ => .pure (.str "")) } }

/-- `skill/beforeMessage` Request with id 3. -/
def beforeMessageFrame : JValue :=
  .obj [("jsonrpc", .str "2.0"), ("id", .num 3),
        ("method", .str "skill/beforeMessage"),
        ("params", .obj [("message", .str "hi")])]

/-- Claim C10, run A: the host resolves the detached `state/set` with a
success Response. -/
def c10OkM : Machine :=
  initMachine tickSkill
    { frames := [(0, .msg tickFrame),
        (10, .msg (.obj [("jsonrpc", .str "2.0"), ("id", .num 1),
          ("result", .obj [])]))]
      closeAt := 20 }

/-- Claim C10, run B: the host rejects the detached `state/set` with a
Response-error. -/
def c10ErrM : Machine :=
  initMachine tickSkill
    { frames := [(0, .msg tickFrame),
        (10, .msg (.obj [("jsonrpc", .str "2.0"), ("id", .num 1),
          ("error", .obj [("code", .num (-32000)), ("message", .str "boom")])]))]
      closeAt := 20 }

/-- Claim C10, run C: the host never answers the detached `state/set`;
its `wait_for` expires at 30 units, the stream closes at 40. -/
def c10NoneM : Machine :=
  initMachine tickSkill { frames := [(0, .msg tickFrame)], closeAt := 400 }

/-- A suspension record for the reverse call of the Scenario B handler,
used to instantiate the timeout theorem at a concrete input. -/
def c6Susp : Susp :=
  { waitId := 1, method := "data/write", deadline := 300,
    k := fun _ => .pure .null }

set_option maxHeartbeats 4000000

/-- Unknown inbound methods fall through every branch of `_dispatch` to
the final `raise ValueError` (server.py line 266). -/
theorem dispatch_unknown (s : ServerState) (method : String) (params : JValue)
    (h : method ∉ implementedMethods) :
    dispatch s method params = .now s (.error ("Unknown method: " ++ method)) := by
  simp only [implementedMethods, List.mem_cons, List.not_mem_nil, or_false,
    not_or] at h
  obtain ⟨h1, h2, h3, h4, h5, h6, h7, h8, h9, h10, h11, h12⟩ := h
  simp [dispatch, h1, h2, h3, h4, h5, h6, h7, h8, h9, h10, h11, h12]

/-- Removing an id from the pending table really removes it. -/
theorem contains_filter_ne (l : List Nat) (id : Nat) :
    (l.filter (fun j => j != id)).contains id = false := by
  induction l with
  | nil => rfl
  | cons a t ih =>
      by_cases hax : a = id
      · subst hax
        simp [List.filter_cons, ih]
      · simp only [List.filter_cons, bne_iff_ne, ne_eq, hax, not_false_eq_true,
          ite_true, if_pos, List.contains_cons, ih, Bool.or_false,
          beq_eq_false_iff_ne]
        exact fun h => hax h.symm

/-- Running a coroutine only ever adds freshly allocated ids to the
pending table: any id present afterwards was present before or is at
least the old `_next_id`. -/
theorem runProg_pending (p : Prog JValue) (m : Machine) :
    ∀ j ∈ (runProg m p).1.server.pending,
      j ∈ m.server.pending ∨ m.server.nextId ≤ j := by
  induction p generalizing m with
  | pure v => intro j hj; exact Or.inl hj
  | fail e => intro j hj; exact Or.inl hj
  | call method params k ih =>
      intro j hj
      simp only [runProg] at hj
      rcases List.mem_append.mp hj with hj | hj
      · exact Or.inl hj
      · simp only [List.mem_singleton] at hj
        exact Or.inr (le_of_eq hj.symm)
  | detach method params k ih =>
      intro j hj
      simp only [runProg] at hj
      exact ih { m with
        dtasks := m.dtasks ++ [DTask.runnable (detachProg method params)] } j hj

/-- The pending-table bound of `runProg` carries over to a whole handler
run (finishing the Response does not touch the table). -/
theorem runHandler_pending (m : Machine) (rid : Option JValue) (p : Prog JValue) :
    ∀ j ∈ (runHandler m rid p).server.pending,
      j ∈ m.server.pending ∨ m.server.nextId ≤ j := by
  intro j hj
  unfold runHandler at hj
  rcases hr : runProg m p with ⟨m1, res⟩
  rw [hr] at hj
  have hbase : j ∈ m1.server.pending →
      j ∈ m.server.pending ∨ m.server.nextId ≤ j := by
    intro hm1
    have := runProg_pending p m j
    rw [hr] at this
    exact this hm1
  cases res with
  | susp s => exact hbase hj
  | done r =>
      cases r with
      | ok v => cases rid with
          | some id => exact hbase hj
          | none => exact hbase hj
      | error e => cases rid with
          | some id => exact hbase hj
          | none => exact hbase hj

/-- A Response whose id is not in the pending table is discarded without
any effect (`_pending.pop` returns None, server.py line 152). -/
theorem respond_skip (m : Machine) (frame : JValue) (id : Nat)
    (hfi : settleId frame = some id)
    (hc : m.server.pending.contains id = false) :
    respond m frame = m := by
  unfold respond
  rw [hfi]
  exact if_neg (by simpa using hc)

/-- Settling a pending Response removes exactly that id from the pending
table. -/
theorem respond_pending (m : Machine) (frame : JValue) (id : Nat)
    (hfi : settleId frame = some id)
    (hc : m.server.pending.contains id = true) :
    (respond m frame).server.pending
      = m.server.pending.filter (fun j => j != id) := by
  unfold respond
  rw [hfi]
  simp only [hc, if_true]
  rfl

/-- C1: the claim says a reverse call issued inside a running tool handler
completes with the host Response while the handler is suspended, yielding
a success Response for the original tools/call (Scenario B).  The code
cannot do this: `_run` awaits `_handle_message` to completion before the
next `readline`, so the host Response (sent at 1.0 time units) is never
read while the handler awaits it; the `wait_for` expires at 30 units, the
handler fails, the bridge writes a `-32603` timeout error for the
tools/call, and the now-late host Response is discarded.  This theorem
evaluates the machine at exactly that failing input: after one turn the
main task is suspended on the reverse call (id 1, deadline 300 ticks);
the final outbox holds only the reverse Request and the timeout error
Response, the pending table is empty, and the loop has ended. -/
theorem C1_reverse_call_times_out_not_resolved :
    mainShape (run 1 c1Machine).main
      = .inHandler (some (.num 2)) 1 "data/write" 300
    ∧ (run 8 c1Machine).outbox
      = [requestFrame 1 "data/write" (some addNoteWriteParams),
         errorFrame (.num 2) (-32603) "Reverse RPC timeout: data/write"]
    ∧ (run 8 c1Machine).server.pending = []
    ∧ (run 8 c1Machine).main = .finished :=
  ⟨rfl, rfl, rfl, rfl⟩

/-- C2 counterexample: the claim says an unknown inbound method yields a
Response-error with code -32601; the code routes the `ValueError` through
the generic exception handler, which writes code -32603
(server.py lines 171-173 and 266).  Evaluated on a Request with id 5 and
method `intelligence/unknownThing`. -/
theorem C2_counterexample_code_is_32603 :
    (run 3 c2Machine).outbox
      = [errorFrame (.num 5) (-32603) "Unknown method: intelligence/unknownThing"]
    ∧ ((errorFrame (.num 5) (-32603)
         "Unknown method: intelligence/unknownThing").getD "error" .null).get
        "code" = some (.num (-32603))
    ∧ (-32603 : Int) ≠ -32601 :=
  ⟨rfl, rfl, by decide⟩

/-- C2 amended: for every inbound Request whose method is not one of the
twelve implemented methods, the bridge writes exactly one Response-error
whose code is -32603 (not -32601) and whose message is
"Unknown method: <method>"; for a Notification with an unknown method no
Response is written and the event is only logged. -/
theorem C2_unknown_method_error (m : Machine) (idv : JValue) (method : String)
    (hm : method ∉ implementedMethods) (hid : idv ≠ .null) :
    handleMessage m (.obj [("jsonrpc", .str "2.0"), ("id", idv),
        ("method", .str method)])
      = { m with
          outbox := m.outbox ++
            [errorFrame idv (-32603) ("Unknown method: " ++ method)]
          main := .idle }
    ∧ handleMessage m (.obj [("jsonrpc", .str "2.0"),
        ("method", .str method)])
      = { m with
          log := m.log ++
            ["Notification handler error: " ++ ("Unknown method: " ++ method)]
          main := .idle } := by
  constructor
  · show handleRequest m _ = _
    unfold handleRequest
    rw [show ((JValue.obj [("jsonrpc", .str "2.0"), ("id", idv),
        ("method", .str method)]).getD "method" (.str "")).asStrD ""
        = method from rfl]
    simp only [dispatch_unknown m.server method _ hm]
    cases idv with
    | null => exact absurd rfl hid
    | bool b => rfl
    | num n => rfl
    | str s => rfl
    | arr xs => rfl
    | obj fs => rfl
  · show handleRequest m _ = _
    unfold handleRequest
    rw [show ((JValue.obj [("jsonrpc", .str "2.0"),
        ("method", .str method)]).getD "method" (.str "")).asStrD ""
        = method from rfl]
    simp only [dispatch_unknown m.server method _ hm]
    rfl

/-- C2 witness: the amended theorem applied at the concrete unknown-method
Request of the counterexample machine. -/
theorem C2_unknown_method_error_witness :
    ("intelligence/unknownThing" ∉ implementedMethods)
    ∧ (JValue.num 5 ≠ JValue.null)
    ∧ handleMessage (initMachine demoSkill { frames := [], closeAt := 0 }) c2Frame
      = { (initMachine demoSkill { frames := [], closeAt := 0 }) with
          outbox := [errorFrame (.num 5) (-32603)
            ("Unknown method: " ++ "intelligence/unknownThing")]
          main := .idle } :=
  ⟨by decide, fun h => JValue.noConfusion h,
   (C2_unknown_method_error
     (initMachine demoSkill { frames := [], closeAt := 0 })
     (.num 5) "intelligence/unknownThing" (by decide)
     (fun h => JValue.noConfusion h)).1⟩

/-- C3: the claim says a tool registered at runtime through the Context
tool-registration surface is present in the registry immediately
afterwards, visible to the very next tools/list and tools/call.  The code
cannot: `_Tools.register` and `_Tools.unregister` have body `pass`
(server.py lines 306-311), so registration leaves the server state
unchanged, the next tools/list still advertises only the construction-time
tools, and calling the new name raises "Unknown tool".  The kitchen-sink
example in the repository does call `ctx.tools.register(...)` and then
logs success, so the stub contradicts the example code shipped with the
runtime. -/
theorem C3_runtime_registration_is_noop :
    ctxToolsRegister (ServerState.init demoSkill) advancedAnalyticsTool
      = ServerState.init demoSkill
    ∧ toolsListResult
        (ctxToolsRegister (ServerState.init demoSkill) advancedAnalyticsTool)
      = toolsListResult (ServerState.init demoSkill)
    ∧ ctxToolsList
        (ctxToolsRegister (ServerState.init demoSkill) advancedAnalyticsTool)
      = ["add_note"]
    ∧ dispatch
        (ctxToolsRegister (ServerState.init demoSkill) advancedAnalyticsTool)
        "tools/call"
        (.obj [("name", .str "advanced_analytics"), ("arguments", .obj [])])
      = .now (ServerState.init demoSkill)
          (.error ("Unknown tool: " ++ "advanced_analytics")) :=
  ⟨rfl, rfl, rfl, rfl⟩

/-- C4 counterexample: the claim says no further inbound frames are
processed after the shutdown acknowledgment.  The code schedules
`sys.exit(0)` via `call_later(0.1, ...)` and keeps reading: a `tools/list`
Request buffered behind the shutdown Request is dispatched and answered
after the acknowledgment and before the exit timer fires (the final
outbox holds both Responses, and the exit flag is set afterwards). -/
theorem C4_counterexample_frame_after_ack :
    (run 5 c4Machine).outbox
      = [responseFrame (.num 1) okTrue,
         responseFrame (.num 2) (toolsListResult (ServerState.init demoSkill))]
    ∧ (run 5 c4Machine).exited = true :=
  ⟨rfl, rfl⟩

/-- C4 amended: on a skill/shutdown Request the bridge writes the
`{"ok": true}` success Response and schedules process exit 0.1 time units
later; the acknowledgment is therefore written strictly before
termination, but inbound frames arriving before the delayed exit fires
are still processed. -/
theorem C4_shutdown_ack_then_delayed_exit (m : Machine) (idv : JValue)
    (hid : idv ≠ .null) :
    handleMessage m (.obj [("jsonrpc", .str "2.0"), ("id", idv),
        ("method", .str "skill/shutdown")])
      = { m with
          outbox := m.outbox ++ [responseFrame idv okTrue]
          main := .idle
          exitAt := some (m.now + exitDelay) } := by
  cases idv with
  | null => exact absurd rfl hid
  | bool b => rfl
  | num n => rfl
  | str s => rfl
  | arr xs => rfl
  | obj fs => rfl

/-- C4 witness: the amended theorem applied to the concrete shutdown
Request of Scenario D. -/
theorem C4_shutdown_ack_then_delayed_exit_witness :
    (JValue.num 1 ≠ JValue.null)
    ∧ handleMessage (initMachine demoSkill { frames := [], closeAt := 0 })
        c4ShutdownFrame
      = { (initMachine demoSkill { frames := [], closeAt := 0 }) with
          outbox := [responseFrame (.num 1) okTrue]
          main := .idle
          exitAt := some (0 + exitDelay) } :=
  ⟨fun h => JValue.noConfusion h,
   C4_shutdown_ack_then_delayed_exit
     (initMachine demoSkill { frames := [], closeAt := 0 })
     (.num 1) (fun h => JValue.noConfusion h)⟩

/-- C5 counterexample: the claim says that on transport shutdown every
outstanding PendingCall is settled exactly once by rejection with a
transport-closed failure.  The code has no such path: when `readline`
returns empty, `_run` just breaks.  Concretely, a tick hook leaves a
detached reverse `state/set` outstanding (pending id 1); the host closes
stdin at 5.0 units; the final machine has ended its loop with the pending
table still holding id 1, the detached task still waiting, and neither a
log entry nor a frame recording any rejection. -/
theorem C5_counterexample_pending_not_rejected :
    (run 5 c5Machine).server.pending = [1]
    ∧ (run 5 c5Machine).dtasks.map dtaskShape = [.waiting 1 "state/set" 300]
    ∧ (run 5 c5Machine).main = .finished
    ∧ (run 5 c5Machine).outbox
      = [responseFrame (.num 9) okTrue, tickStateSetRequest]
    ∧ (run 5 c5Machine).log = [] :=
  ⟨rfl, rfl, rfl, rfl, rfl⟩

/-- C5 amended: when the inbound stream closes, the Transport Loop simply
ends: the EOF turn changes only the clock and the main-task status, so
outstanding PendingCalls are left unsettled and no transport-closed
rejection is ever delivered. -/
theorem C5_eof_leaves_pending_unsettled (m : Machine) (i : Nat) (td : Time)
    (hx : m.exited = false) (hm : m.main = .idle)
    (hr : findRunnable m.dtasks = none)
    (hf : m.inbox.frames = [])
    (hw : earliestWaiting m.dtasks = some (i, td))
    (he : m.exitAt = none)
    (ht : max m.now m.inbox.closeAt ≤ td) :
    step m = { m with now := max m.now m.inbox.closeAt, main := .finished } := by
  unfold step
  rw [hx]
  simp only [Bool.false_eq_true, if_false, hm, hr, hf, hw, he, ht, if_true]
  unfold consumeArrival
  rw [hf]
  simp [he, hx]

/-- C5 witness: the amended theorem applied to the concrete machine of
the counterexample just before its EOF turn. -/
theorem C5_eof_leaves_pending_unsettled_witness :
    ((run 2 c5Machine).exited = false)
    ∧ ((run 2 c5Machine).main = .idle)
    ∧ (findRunnable (run 2 c5Machine).dtasks = none)
    ∧ ((run 2 c5Machine).inbox.frames = [])
    ∧ (earliestWaiting (run 2 c5Machine).dtasks = some (0, 300))
    ∧ ((run 2 c5Machine).exitAt = none)
    ∧ (max (run 2 c5Machine).now (run 2 c5Machine).inbox.closeAt ≤ 300)
    ∧ step (run 2 c5Machine)
      = { (run 2 c5Machine) with
          now := max (run 2 c5Machine).now (run 2 c5Machine).inbox.closeAt
          main := .finished } :=
  ⟨rfl, rfl, rfl, rfl, rfl, rfl, by decide,
   C5_eof_leaves_pending_unsettled (run 2 c5Machine) 0 300
     rfl rfl rfl rfl rfl rfl (by decide)⟩

/-- C6: a reverse call suspends with deadline exactly 30 time units after
it is issued; when the `wait_for` timeout fires, the pending entry is
popped and the handler is resumed with the RuntimeError timeout message,
and the awaited id can never reappear in the pending table during that
resumption (fresh ids are strictly larger); a Response arriving later for
an id no longer pending is discarded without any effect on the machine. -/
theorem C6_timeout_removes_pending_and_discards_late (m : Machine)
    (rid : Option JValue) (s : Susp) (frame : JValue) (i : Nat)
    (method : String) (params : Option JValue)
    (k : Except String JValue → Prog JValue)
    (hlt : s.waitId < m.server.nextId)
    (hlate : m.server.pending.contains i = false)
    (hfi : settleId frame = some i) :
    runProg m (Prog.call method params k)
      = ({ m with
           server := { m.server with
             nextId := m.server.nextId + 1
             pending := m.server.pending ++ [m.server.nextId] }
           outbox := m.outbox ++ [requestFrame m.server.nextId method params] },
         .susp { waitId := m.server.nextId, method := method,
                 deadline := m.now + 30 * timeUnit, k := k })
    ∧ fireHandlerTimeout m rid s
        = runHandler
            { m with
              now := s.deadline
              server := { m.server with
                pending := m.server.pending.filter (fun j => j != s.waitId) } }
            rid (s.k (.error ("Reverse RPC timeout: " ++ s.method)))
    ∧ s.waitId ∉ (fireHandlerTimeout m rid s).server.pending
    ∧ respond m frame = m := by
  refine ⟨rfl, rfl, ?_, respond_skip m frame i hfi hlate⟩
  intro hmem
  unfold fireHandlerTimeout at hmem
  have h2 := runHandler_pending
    { m with
      now := s.deadline
      server := { m.server with
        pending := m.server.pending.filter (fun j => j != s.waitId) } }
    rid (s.k (.error ("Reverse RPC timeout: " ++ s.method))) s.waitId hmem
  rcases h2 with h2 | h2
  · have h3 := List.mem_filter.mp h2
    simp at h3
  · exact absurd h2 (not_le.mpr hlt)

/-- C6 witness: the theorem applied to the Scenario B machine after its
handler has timed out (pending table empty, next id 2): the late host
Response for reverse id 1 is discarded and the suspension bookkeeping is
as stated. -/
theorem C6_timeout_witness :
    (c6Susp.waitId < (run 2 c1Machine).server.nextId)
    ∧ ((run 2 c1Machine).server.pending.contains 1 = false)
    ∧ (settleId c1HostResponse = some 1)
    ∧ c6Susp.waitId ∉
        (fireHandlerTimeout (run 2 c1Machine) (some (.num 2)) c6Susp).server.pending
    ∧ respond (run 2 c1Machine) c1HostResponse = run 2 c1Machine :=
  ⟨by decide, rfl, rfl,
   (C6_timeout_removes_pending_and_discards_late (run 2 c1Machine)
     (some (.num 2)) c6Susp c1HostResponse 1 "data/write" none
     (fun _ => .pure .null) (by decide) rfl rfl).2.2.1,
   (C6_timeout_removes_pending_and_discards_late (run 2 c1Machine)
     (some (.num 2)) c6Susp c1HostResponse 1 "data/write" none
     (fun _ => .pure .null) (by decide) rfl rfl).2.2.2⟩

/-- C7: settling a pending reverse call is idempotent.  Processing the
same Response frame a second time is a silent no-op because
`_pending.pop` removed the id on the first settlement: the machine after
two settlements equals the machine after one, for every machine and every
frame. -/
theorem C7_settle_idempotent (m : Machine) (frame : JValue) :
    respond (respond m frame) frame = respond m frame := by
  rcases hsi : settleId frame with _ | id
  · simp only [respond, hsi]
  · rcases hc : m.server.pending.contains id with _ | _
    · have h0 := respond_skip m frame id hsi hc
      rw [h0]
      exact h0
    · have hp := respond_pending m frame id hsi hc
      exact respond_skip (respond m frame) frame id hsi
        (by rw [hp]; exact contains_filter_ne _ _)

/-- C8: blank inbound lines are skipped silently and a line that is not
valid JSON only appends one log entry, for every machine state; the loop
then continues: in Scenario C the bad line is followed by a valid
tools/list Request, which is answered correctly, the log holds exactly
the one parse-failure entry, the process has not exited, and the loop is
back at the readline after the two lines. -/
theorem C8_codec_errors_nonfatal (m : Machine) (raw : String) :
    processArrival m .blank = m
    ∧ processArrival m (.bad raw)
      = { m with log := m.log ++ ["Failed to parse JSON-RPC message: " ++ raw] }
    ∧ (run 4 c8Machine).log = ["Failed to parse JSON-RPC message: not json"]
    ∧ (run 4 c8Machine).outbox
      = [responseFrame (.num 7) (toolsListResult (ServerState.init demoSkill))]
    ∧ (run 4 c8Machine).exited = false
    ∧ (run 2 c8Machine).main = .idle :=
  ⟨rfl, rfl, rfl, rfl, rfl, rfl⟩

/-- C9: the beforeMessage and afterResponse Responses distinguish
transformation from no-change explicitly.  If the hook is set and returns
value `v`, the Response carries `{"message": v}` when `v` is a string
(including the empty string) and `{"message": null}` otherwise; if no
hook is set the Response carries `{"message": null}`; symmetrically for
afterResponse with the `response` field (server.py lines 242-254). -/
theorem C9_transform_echo_distinguishes_empty (m : Machine) (idn : Int)
    (msgv v : JValue) (hb : JValue → Prog JValue) (s1 : String) :
    (m.server.hooks.bind (fun h => h.on_before_message) = some hb →
     hb msgv = .pure v →
     handleMessage m (.obj [("jsonrpc", .str "2.0"), ("id", .num idn),
        ("method", .str "skill/beforeMessage"),
        ("params", .obj [("message", msgv)])])
      = { m with
          outbox := m.outbox ++
            [responseFrame (.num idn)
              (.obj [("message", if v.isStr then v else .null)])]
          main := .idle })
    ∧ (m.server.hooks.bind (fun h => h.on_before_message) = none →
       handleMessage m (.obj [("jsonrpc", .str "2.0"), ("id", .num idn),
          ("method", .str "skill/beforeMessage"),
          ("params", .obj [("message", msgv)])])
        = { m with
            outbox := m.outbox ++
              [responseFrame (.num idn) (.obj [("message", .null)])]
            main := .idle })
    ∧ wrapBeforeMessage (.str s1) = .pure (.obj [("message", .str s1)])
    ∧ (v.isStr = false → wrapBeforeMessage v = .pure (.obj [("message", .null)]))
    ∧ (m.server.hooks.bind (fun h => h.on_after_response) = some hb →
       hb msgv = .pure v →
       handleMessage m (.obj [("jsonrpc", .str "2.0"), ("id", .num idn),
          ("method", .str "skill/afterResponse"),
          ("params", .obj [("response", msgv)])])
        = { m with
            outbox := m.outbox ++
              [responseFrame (.num idn)
                (.obj [("response", if v.isStr then v else .null)])]
            main := .idle })
    ∧ (m.server.hooks.bind (fun h => h.on_after_response) = none →
       handleMessage m (.obj [("jsonrpc", .str "2.0"), ("id", .num idn),
          ("method", .str "skill/afterResponse"),
          ("params", .obj [("response", msgv)])])
        = { m with
            outbox := m.outbox ++
              [responseFrame (.num idn) (.obj [("response", .null)])]
            main := .idle }) := by
  refine ⟨?_, ?_, rfl, ?_, ?_, ?_⟩
  · intro h1 h2
    show handleRequest m _ = _
    unfold handleRequest
    simp only [dispatch, h1]
    show runHandler { m with server := m.server } (some (.num idn))
        ((hb msgv).bind wrapBeforeMessage) = _
    rw [h2]
    rfl
  · intro h1
    show handleRequest m _ = _
    unfold handleRequest
    simp only [dispatch, h1]
    rfl
  · intro hv
    unfold wrapBeforeMessage
    rw [hv]
    rfl
  · intro h1 h2
    show handleRequest m _ = _
    unfold handleRequest
    simp only [dispatch, h1]
    show runHandler { m with server := m.server } (some (.num idn))
        ((hb msgv).bind wrapAfterResponse) = _
    rw [h2]
    rfl
  · intro h1
    show handleRequest m _ = _
    unfold handleRequest
    simp only [dispatch, h1]
    rfl

/-- C9 witness: a skill whose before-message hook returns the empty
string: the Response carries `{"message": ""}` — an explicit
transform-to-empty, distinct from the no-change marker null. -/
theorem C9_transform_echo_witness :
    ((initMachine emptyTransformSkill { frames := [], closeAt := 0 }).server.hooks.bind
        (fun h => h.on_before_message)
      = some (fun _ => Prog.pure (JValue.str "")))
    ∧ ((fun _ : JValue => Prog.pure (JValue.str "")) (.str "hi")
      = Prog.pure (JValue.str ""))
    ∧ handleMessage
        (initMachine emptyTransformSkill { frames := [], closeAt := 0 })
        beforeMessageFrame
      = { (initMachine emptyTransformSkill { frames := [], closeAt := 0 }) with
          outbox := [responseFrame (.num 3) (.obj [("message", .str "")])]
          main := .idle } :=
  ⟨rfl, rfl,
   (C9_transform_echo_distinguishes_empty
     (initMachine emptyTransformSkill { frames := [], closeAt := 0 })
     3 (.str "hi") (.str "") (fun _ => Prog.pure (JValue.str "")) "").1
     rfl rfl⟩

/-- C10: `_Context.set_state` and `_Context.emit_event` only schedule the
underlying reverse RPC as a detached task and return at once: running a
`detach` is, for every machine and continuation, the same as running the
continuation with the detached task appended, and the continuation takes
no outcome, so the caller can never observe the result or failure of the
reverse call.  Concretely, a tick hook that fire-and-forgets a
`state/set`: the ok-Response for the tick is written even before the
reverse Request frame reaches the wire, and the outbox is identical
whether the host answers with success, answers with an error, or never
answers (timeout) — the hook observes nothing in every case, and the
tick Response never implies the host applied the state change. -/
theorem C10_fire_and_forget_unobservable (m : Machine) (mth : String)
    (p : Option JValue) (k : Prog JValue) :
    runProg m (.detach mth p k)
      = runProg
          { m with dtasks := m.dtasks ++ [.runnable (detachProg mth p)] } k
    ∧ (run 8 c10OkM).outbox
      = [responseFrame (.num 9) okTrue, tickStateSetRequest]
    ∧ (run 8 c10ErrM).outbox = (run 8 c10OkM).outbox
    ∧ (run 8 c10NoneM).outbox = (run 8 c10OkM).outbox
    ∧ (run 8 c10NoneM).main = .finished :=
  ⟨rfl, rfl, rfl, rfl, rfl⟩
